import Mathlib

/-!
Shallow embedding of the weather-lookup pipeline of the repository
(`src/assets/js/scripts.js` and the extended variant in `src/unnamed/part_000`):
city geocoding, current-weather fetch, 5-day-forecast fetch, WMO weather-code
translation, timestamp formatting, and the form-submit orchestration.

Modelling conventions:
  - A network interaction is a value of `FetchOutcome β`: either the promise
    rejected (`reject msg`, carrying the transport failure text) or a response
    arrived with an HTTP status and an already-decoded JSON body of shape `β`.
  - JavaScript `undefined` object fields are modelled with `Option`; string
    interpolation of `undefined` yields the string "undefined" (`jsUndef`).
  - JS numbers that matter only as data are modelled as `ℚ` (exact), WMO codes
    as `ℤ`.
  - Fallible functions return `Except String α`, the `String` being the thrown
    `Error`'s message.
-/

/-- JS `s.split(sep)` for a one-character separator (the only kind the source
uses), by structural recursion over the characters so that concrete instances
evaluate inside the kernel. -/
def splitCharAux (sep : Char) : List Char → List Char → List String
  | [], acc => [String.mk acc.reverse]
  | c :: rest, acc =>
    if c = sep then String.mk acc.reverse :: splitCharAux sep rest []
    else splitCharAux sep rest (c :: acc)

/-- JS `s.split(sep)`: `"" ↦ [""]`, `"aTb" ↦ ["a", "b"]`, `"T" ↦ ["", ""]`. -/
def splitChar (sep : Char) (s : String) : List String := splitCharAux sep s.data []

/-- JS `s.trim()` (whitespace at both ends removed). -/
def jsTrim (s : String) : String :=
  String.mk (((s.data.dropWhile Char.isWhitespace).reverse.dropWhile
    Char.isWhitespace).reverse)

instance {ε α : Type} [DecidableEq ε] [DecidableEq α] : DecidableEq (Except ε α) :=
  fun x y =>
    match x, y with
    | .ok a, .ok b =>
      if h : a = b then isTrue (by rw [h])
      else isFalse (fun e => h (by injection e))
    | .error a, .error b =>
      if h : a = b then isTrue (by rw [h])
      else isFalse (fun e => h (by injection e))
    | .ok _, .error _ => isFalse (fun e => Except.noConfusion e)
    | .error _, .ok _ => isFalse (fun e => Except.noConfusion e)

/-- HTTP status and decoded body of a completed request, or a rejected promise. -/
inductive FetchOutcome (β : Type) where
  | reject (msg : String)
  | response (status : Nat) (body : β)

/-- The `Response.ok` predicate of the fetch API: status in the 2xx range. -/
def statusOk (status : Nat) : Bool := decide (200 ≤ status ∧ status ≤ 299)

/-- JS `a || b` for strings: the empty string is falsy. -/
def jsOr (s fb : String) : String := if s = "" then fb else s

/-- String interpolation of a possibly-undefined JS string value. -/
def jsUndef (o : Option String) : String := o.getD "undefined"

/-- JS `Math.round`: half-up rounding (ties toward positive infinity). This is
the floor of `q + 1/2`, written on the numerator and positive denominator so
that it evaluates by integer arithmetic alone. -/
def jsRound (q : ℚ) : ℤ := (2 * q.num + q.den) / (2 * q.den)

/-! ## Code Translator (`getWeatherDescription`, `getWeatherIcon`) -/

/-- The object literal of `getWeatherDescription`, as an association list. -/
def descMap : List (ℤ × String) :=
  [(0, "Céu limpo"),
   (1, "Predominantemente limpo"),
   (2, "Parcialmente nublado"),
   (3, "Nublado"),
   (45, "Neblina"),
   (48, "Neblina com geada"),
   (51, "Garoa leve"),
   (53, "Garoa moderada"),
   (55, "Garoa intensa"),
   (61, "Chuva leve"),
   (63, "Chuva moderada"),
   (65, "Chuva forte"),
   (71, "Neve leve"),
   (73, "Neve moderada"),
   (75, "Neve forte"),
   (77, "Granizo"),
   (80, "Pancadas de chuva leves"),
   (81, "Pancadas de chuva moderadas"),
   (82, "Pancadas de chuva fortes"),
   (85, "Pancadas de neve leves"),
   (86, "Pancadas de neve fortes"),
   (95, "Tempestade"),
   (96, "Tempestade com granizo leve"),
   (99, "Tempestade com granizo forte")]

/-- Property lookup `map[code] || 'Condição desconhecida'` of the source. -/
def getWeatherDescription (code : ℤ) : String :=
  (descMap.lookup code).getD "Condição desconhecida"

/-- The if-chain of `getWeatherIcon`; `[..].includes(code)` becomes `code ∈ [..]`. -/
def getWeatherIcon (code : ℤ) : String :=
  if code = 0 then "wi-day-sunny"
  else if code = 1 then "wi-day-sunny"
  else if code = 2 then "wi-day-cloudy"
  else if code = 3 then "wi-cloud"
  else if code = 45 ∨ code = 48 then "wi-fog"
  else if code ∈ ([51, 53, 55, 61, 63, 65, 80, 81, 82] : List ℤ) then "wi-rain"
  else if code ∈ ([71, 73, 75, 85, 86] : List ℤ) then "wi-snow"
  else if code = 77 then "wi-hail"
  else if code ∈ ([95, 96, 99] : List ℤ) then "wi-thunderstorm"
  else "wi-na"

/-- The 24 WMO codes that appear in the source's tables. -/
def knownCodes : List ℤ :=
  [0, 1, 2, 3, 45, 48, 51, 53, 55, 61, 63, 65, 71, 73, 75, 77,
   80, 81, 82, 85, 86, 95, 96, 99]

/-! ## Coordinate Resolver (`getCityCoordinates`) -/

/-- One entry of the geocoding response's `results` array. Every field may be
absent (`undefined`): the source reads them without validation. -/
structure GeoResult where
  latitude : Option ℚ
  longitude : Option ℚ
  name : Option String
  country : Option String
  deriving DecidableEq

/-- Decoded geocoding response body: `{ results: [...] }` or `{ }`. -/
structure GeoBody where
  results : Option (List GeoResult)
  deriving DecidableEq

/-- The object `{ lat, lon, name, country }` returned by the resolver. -/
structure GeoLocation where
  lat : Option ℚ
  lon : Option ℚ
  name : Option String
  country : Option String
  deriving DecidableEq

/-- Body of `getCityCoordinates` after the empty-name validation: status check,
then the `!data.results || data.results.length === 0` not-found check, then
projection of the first result. -/
def geoResolve (net : FetchOutcome GeoBody) : Except String GeoLocation :=
  match net with
  | .reject msg => Except.error msg
  | .response status body =>
    if statusOk status = false then
      Except.error "Erro ao buscar coordenadas da cidade"
    else
      match body.results with
      | none => Except.error "Cidade não encontrada"
      | some [] => Except.error "Cidade não encontrada"
      | some (r :: _) => Except.ok ⟨r.latitude, r.longitude, r.name, r.country⟩

/-- The resolver, paired with the number of network requests it issues. The
guard mirrors `!cityName || !cityName.trim()`; when it trips, no request is
made (count 0), otherwise exactly one fetch happens (count 1). -/
def getCityCoordinates (cityName : String) (net : FetchOutcome GeoBody) :
    Except String GeoLocation × Nat :=
  if cityName = "" ∨ jsTrim cityName = "" then
    (Except.error "Nome da cidade é obrigatório", 0)
  else
    (geoResolve net, 1)

/-! ## Weather Fetcher (`getWeatherData`) -/

/-- Decoded current-weather response body; the `current_weather` record itself
is kept abstract because the fetcher never inspects it. -/
structure WeatherBody (α : Type) where
  current_weather : Option α
  deriving DecidableEq

/-- The current-weather fetcher. `lat`/`lon` only feed the request URL; the
result is `data.current_weather || null`, modelled as the `Option` payload. -/
def getWeatherData {α : Type} (lat lon : Option ℚ)
    (net : FetchOutcome (WeatherBody α)) : Except String (Option α) :=
  match net with
  | .reject msg => Except.error msg
  | .response status body =>
    if statusOk status = false then
      Except.error "Erro ao buscar dados do clima"
    else
      Except.ok body.current_weather

/-! ## Calendar model for the Forecast Fetcher

A JS `Date` holds an instant (`ms` since the Unix epoch, UTC) plus the
process's fixed UTC offset in minutes (local wall time = UTC + offset; this
models a timezone without a DST transition inside the 4-day window).
`toISOString().slice(0, 10)` formats the UTC calendar date; `getDate`/`setDate`
operate on the local calendar date. The proleptic-Gregorian conversion below is
the standard civil-from-days algorithm, valid for the years 0..9999 that
`toISOString` renders as plain 4-digit years. -/

structure JsInstant where
  ms : ℤ
  tzOffsetMin : ℤ
  deriving DecidableEq

def msPerDay : ℤ := 86400000

/-- Days since 1970-01-01 of the instant's UTC calendar date. -/
def utcDays (t : JsInstant) : ℤ := t.ms / msPerDay

/-- Milliseconds of local wall-clock time since the epoch. -/
def localMs (t : JsInstant) : ℤ := t.ms + t.tzOffsetMin * 60000

/-- JS `d.setDate(d.getDate() + n)`: add `n` days to the local calendar date,
keeping the local time of day (fixed-offset model). -/
def jsSetDatePlus (t : JsInstant) (n : ℤ) : JsInstant :=
  ⟨(localMs t / msPerDay + n) * msPerDay + localMs t % msPerDay
     - t.tzOffsetMin * 60000,
   t.tzOffsetMin⟩

/-- Proleptic-Gregorian (year, month, day) of a days-since-epoch count. -/
def civilFromDays (z0 : ℤ) : ℤ × Nat × Nat :=
  let z := z0 + 719468
  let era := z / 146097
  let doe := (z % 146097).toNat
  let yoe := (doe - doe / 1460 + doe / 36524 - doe / 146096) / 365
  let y := era * 400 + (yoe : ℤ)
  let doy := doe - (365 * yoe + yoe / 4 - yoe / 100)
  let mp := (5 * doy + 2) / 153
  let d := doy - (153 * mp + 2) / 5 + 1
  let m := if mp < 10 then mp + 3 else mp - 9
  (if m ≤ 2 then y + 1 else y, m, d)

def digitChar (n : Nat) : Char := Char.ofNat (48 + n % 10)

def pad2 (n : Nat) : String := String.mk [digitChar (n / 10), digitChar n]

def pad4 (n : Nat) : String :=
  String.mk [digitChar (n / 1000), digitChar (n / 100), digitChar (n / 10), digitChar n]

/-- The `YYYY-MM-DD` rendering of a days-since-epoch count, as produced by
`toISOString().slice(0, 10)` (years 0..9999). -/
def isoDateOfDays (z : ℤ) : String :=
  let c := civilFromDays z
  pad4 c.1.toNat ++ "-" ++ pad2 c.2.1 ++ "-" ++ pad2 c.2.2

/-! ## Forecast Fetcher (`get5DayForecast`) -/

/-- Decoded `daily` aggregate block of the forecast response. -/
structure Daily where
  time : List String
  temperature_2m_max : List ℚ
  temperature_2m_min : List ℚ
  weathercode : List ℤ
  deriving DecidableEq

/-- Decoded forecast response body: `{ daily: {...} }` or without `daily`. -/
structure ForecastBody where
  daily : Option Daily
  deriving DecidableEq

/-- The `start_date`/`end_date` query parameters sent with the request. -/
structure ForecastQuery where
  start_date : String
  end_date : String
  deriving DecidableEq

/-- The date window computed at the top of `get5DayForecast`:
`startDate = today.toISOString().slice(0,10)` and
`endDate` the same rendering after `end.setDate(end.getDate() + 4)`. -/
def forecastWindow (t : JsInstant) : ForecastQuery :=
  ⟨isoDateOfDays (utcDays t), isoDateOfDays (utcDays (jsSetDatePlus t 4))⟩

/-- The 5-day forecast fetcher: result paired with the requested date window.
On success the result is `data.daily || null`. -/
def get5DayForecast (t : JsInstant) (lat lon : Option ℚ)
    (net : FetchOutcome ForecastBody) :
    Except String (Option Daily) × ForecastQuery :=
  let q := forecastWindow t
  match net with
  | .reject msg => (Except.error msg, q)
  | .response status body =>
    if statusOk status = false then
      (Except.error "Erro ao buscar previsão de 5 dias", q)
    else
      (Except.ok body.daily, q)

/-! ## Timestamp Formatter (`formatDateTimeLocal`) -/

/-- The timestamp formatter. The ambient clock's `new Date().toLocaleString`
rendering is the `nowStr` parameter, and the generic `new Date(s).toLocaleString`
parse-and-format of an arbitrary string is the `localeFormat` oracle (`none`
models that call throwing, which the source catches). Array reads past the end
of a split (`date[2]` on a short date part) are JS `undefined` and interpolate
as the string "undefined"; `time[1] || '00'` treats a missing or empty minute
as `'00'`. -/
def formatDateTimeLocal (nowStr : String) (localeFormat : String → Option String)
    (isoString : String) : String :=
  if isoString = "" then nowStr
  else
    let parts := splitChar 'T' isoString
    if 2 ≤ parts.length then
      let date := splitChar '-' ((parts.get? 0).getD "")
      let time := splitChar ':' ((parts.get? 1).getD "")
      let day := jsUndef (date.get? 2)
      let month := jsUndef (date.get? 1)
      let year := jsUndef (date.get? 0)
      let hour := jsUndef (time.get? 0)
      let minute := jsOr ((time.get? 1).getD "") "00"
      day ++ "/" ++ month ++ "/" ++ year ++ " " ++ hour ++ ":" ++ minute
    else
      match localeFormat isoString with
      | some s => s
      | none => isoString

/-! ## Orchestrator (form-submit handler of `src/unnamed/part_000`) -/

/-- ASCII lowercasing, the model of JS `toLowerCase` for the substring check
below (the pattern "cidade" and the repository's message texts only exercise
ASCII letters). -/
def lowerChars (s : String) : List Char := s.data.map Char.toLower

/-- Whether `needle` occurs contiguously inside `haystack`. -/
def containsSeq (needle : List Char) : List Char → Bool
  | [] => needle.isEmpty
  | c :: rest => needle.isPrefixOf (c :: rest) || containsSeq needle rest

/-- JS `s.toLowerCase().includes(pat)` for an already-lowercase pattern. -/
def jsIncludesLower (s pat : String) : Bool := containsSeq pat.toList (lowerChars s)

/-- The fixed message the catch block starts from. -/
def notFoundDisplay : String := "Cidade não encontrada. Tente novamente."

/-- The catch block of the submit handler: start from the fixed not-found
message; only when the error has a truthy (non-empty) message that, lowercased,
does not contain "cidade" is the original message shown (with a dead
`|| fallback` kept from the source). `none` models a falsy error or message. -/
def orchestratorErrorMessage (errMsg : Option String) : String :=
  match errMsg with
  | none => notFoundDisplay
  | some m =>
    if m ≠ "" ∧ jsIncludesLower m "cidade" = false then
      jsOr m "Erro ao buscar dados do clima. Tente novamente."
    else
      notFoundDisplay

/-- The `current_weather` record as used by the handler. -/
structure CurrentWeatherRec where
  temperature : ℚ
  weathercode : ℤ
  time : String
  windspeed : Option ℚ
  deriving DecidableEq

/-- Ambient context of one submit: the clock at the forecast call, the locale
rendering of the current time, and the generic date-parse oracle. -/
structure Env where
  nowInstant : JsInstant
  nowLocaleStr : String
  localeFormat : String → Option String

/-- The display values the success path of the handler writes into the page. -/
structure Display where
  cityLabel : String
  temperatureLabel : String
  descriptionLabel : String
  iconClass : String
  datetimeLabel : String
  forecastShown : Bool
  deriving DecidableEq

/-- The try block of the submit handler of `src/unnamed/part_000`: resolve the
city, fetch the weather (a `null` record throws "Dados de clima indisponíveis"),
build the display values, then attempt the 5-day forecast inside its own
try/catch whose failure only leaves the forecast panel empty. An `error` result
is the thrown message the catch block receives. -/
def runQuery (env : Env) (cityName : String) (geoNet : FetchOutcome GeoBody)
    (weatherNet : FetchOutcome (WeatherBody CurrentWeatherRec))
    (forecastNet : FetchOutcome ForecastBody) : Except String Display :=
  match (getCityCoordinates cityName geoNet).1 with
  | .error e => Except.error e
  | .ok cityData =>
    match getWeatherData cityData.lat cityData.lon weatherNet with
    | .error e => Except.error e
    | .ok none => Except.error "Dados de clima indisponíveis"
    | .ok (some weather) =>
      let forecastShown :=
        match (get5DayForecast env.nowInstant cityData.lat cityData.lon forecastNet).1 with
        | .ok (some daily) => !daily.time.isEmpty
        | .ok none => false
        | .error _ => false
      Except.ok
        ⟨jsUndef cityData.name ++ ", " ++ jsUndef cityData.country,
         toString (jsRound weather.temperature) ++ "°C",
         getWeatherDescription weather.weathercode,
         getWeatherIcon weather.weathercode,
         formatDateTimeLocal env.nowLocaleStr env.localeFormat weather.time,
         forecastShown⟩

/-- The message the user sees for a whole query: nothing on success, the
catch-block mapping of the thrown message on failure. -/
def shownMessage (result : Except String Display) : Option String :=
  match result with
  | .ok _ => none
  | .error m => some (orchestratorErrorMessage (some m))

/-- Modelled from the spec: "start = current date (at call time, in the
process's local date)" — the calendar date of the call instant in the
process's local timezone, rendered `YYYY-MM-DD`. -/
def specLocalStartDate (t : JsInstant) : String :=
  isoDateOfDays (localMs t / msPerDay)

/-! ## Claim theorems -/

theorem lookup_eq_none_of_not_mem_keys (c : ℤ) :
    ∀ l : List (ℤ × String), c ∉ l.map Prod.fst → l.lookup c = none := by
  intro l
  induction l with
  | nil => intro _; rfl
  | cons p t ih =>
    intro h
    have h1 : ¬c = p.1 ∧ c ∉ t.map Prod.fst := by
      simpa [List.map_cons, not_or] using h
    have hbeq : (c == p.1) = false := by
      simpa using h1.1
    have ht : t.lookup c = none := ih h1.2
    simp [List.lookup, hbeq, ht]

theorem descMap_keys : descMap.map Prod.fst = knownCodes := by decide

theorem getWeatherDescription_unknown (c : ℤ) (hc : c ∉ knownCodes) :
    getWeatherDescription c = "Condição desconhecida" := by
  have : descMap.lookup c = none := by
    apply lookup_eq_none_of_not_mem_keys
    rw [descMap_keys]; exact hc
  simp [getWeatherDescription, this]

theorem getWeatherIcon_unknown (c : ℤ) (hc : c ∉ knownCodes) :
    getWeatherIcon c = "wi-na" := by
  simp only [knownCodes, List.mem_cons, List.not_mem_nil, or_false, not_or] at hc
  obtain ⟨h0, h1, h2, h3, h45, h48, h51, h53, h55, h61, h63, h65,
    h71, h73, h75, h77, h80, h81, h82, h85, h86, h95, h96, h99⟩ := hc
  simp [getWeatherIcon, h0, h1, h2, h3, h45, h48, h51, h53, h55, h61, h63, h65,
    h71, h73, h75, h77, h80, h81, h82, h85, h86, h95, h96, h99]

theorem get5DayForecast_query (t : JsInstant) (lat lon : Option ℚ)
    (net : FetchOutcome ForecastBody) :
    (get5DayForecast t lat lon net).2 = forecastWindow t := by
  cases net with
  | reject msg => rfl
  | response status body =>
    simp only [get5DayForecast]
    split <;> rfl

theorem jsSetDatePlus_ms (t : JsInstant) (n : ℤ) :
    (jsSetDatePlus t n).ms = t.ms + n * 86400000 := by
  simp only [jsSetDatePlus, localMs, msPerDay]
  omega

theorem utcDays_jsSetDatePlus (t : JsInstant) (n : ℤ) :
    utcDays (jsSetDatePlus t n) = utcDays t + n := by
  simp only [utcDays, jsSetDatePlus_ms, msPerDay]
  omega

/-- Claim C1, counterexample. The claim asserts that the geocoding
`UpstreamError` text does not reference the city substring and therefore is
shown verbatim. In the source the routing substring is "cidade" and the
geocoding upstream text "Erro ao buscar coordenadas da cidade" does contain
it, so a full query failing with a geocoding 500 displays the normalized
not-found message instead of the upstream text. -/
theorem C1_counterexample :
    shownMessage (runQuery ⟨⟨0, 0⟩, "x", fun _ => none⟩ "Lisboa"
        (FetchOutcome.response 500 ⟨none⟩) (FetchOutcome.response 200 ⟨none⟩)
        (FetchOutcome.reject "x"))
      = some "Cidade não encontrada. Tente novamente."
    ∧ jsIncludesLower "Erro ao buscar coordenadas da cidade" "cidade" = true
    ∧ orchestratorErrorMessage (some "Erro ao buscar coordenadas da cidade")
        ≠ "Erro ao buscar coordenadas da cidade" := by decide

/-- Claim C1, amended: the shown message is decided by whether the failure's
lowercased message contains the substring "cidade": a non-empty message
without it is shown verbatim; a message containing it, an empty message, and
a missing message are all normalized to the fixed not-found text. In
particular the geocoding UpstreamError and the NotFoundError are both
normalized, while the weather UpstreamError is shown verbatim. -/
theorem C1_amended_messageRouting :
    (∀ m : String, m ≠ "" → jsIncludesLower m "cidade" = false →
      orchestratorErrorMessage (some m) = m)
    ∧ (∀ m : String, jsIncludesLower m "cidade" = true →
      orchestratorErrorMessage (some m) = notFoundDisplay)
    ∧ orchestratorErrorMessage none = notFoundDisplay
    ∧ orchestratorErrorMessage (some "") = notFoundDisplay
    ∧ orchestratorErrorMessage (some "Erro ao buscar coordenadas da cidade")
        = notFoundDisplay
    ∧ orchestratorErrorMessage (some "Cidade não encontrada") = notFoundDisplay
    ∧ orchestratorErrorMessage (some "Erro ao buscar dados do clima")
        = "Erro ao buscar dados do clima" := by
  refine ⟨?_, ?_, by decide, by decide, by decide, by decide, by decide⟩
  · intro m h1 h2
    simp [orchestratorErrorMessage, jsOr, h1, h2]
  · intro m h
    simp [orchestratorErrorMessage, h]

/-- Claim C1, witness for the amended routing at a concrete transport error. -/
theorem C1_witness : orchestratorErrorMessage (some "falha de rede") = "falha de rede" :=
  C1_amended_messageRouting.1 "falha de rede" (by decide) (by decide)

/-- Claim C2: both translator functions reproduce the table exactly on the 24
known WMO codes and return the fixed fallbacks on every other integer. They
are plain total functions, so they cannot throw and are deterministic. -/
theorem C2_weatherCodeTable :
    (getWeatherDescription 0 = "Céu limpo"
      ∧ getWeatherDescription 1 = "Predominantemente limpo"
      ∧ getWeatherDescription 2 = "Parcialmente nublado"
      ∧ getWeatherDescription 3 = "Nublado"
      ∧ getWeatherDescription 45 = "Neblina"
      ∧ getWeatherDescription 48 = "Neblina com geada"
      ∧ getWeatherDescription 51 = "Garoa leve"
      ∧ getWeatherDescription 53 = "Garoa moderada"
      ∧ getWeatherDescription 55 = "Garoa intensa"
      ∧ getWeatherDescription 61 = "Chuva leve"
      ∧ getWeatherDescription 63 = "Chuva moderada"
      ∧ getWeatherDescription 65 = "Chuva forte"
      ∧ getWeatherDescription 71 = "Neve leve"
      ∧ getWeatherDescription 73 = "Neve moderada"
      ∧ getWeatherDescription 75 = "Neve forte"
      ∧ getWeatherDescription 77 = "Granizo"
      ∧ getWeatherDescription 80 = "Pancadas de chuva leves"
      ∧ getWeatherDescription 81 = "Pancadas de chuva moderadas"
      ∧ getWeatherDescription 82 = "Pancadas de chuva fortes"
      ∧ getWeatherDescription 85 = "Pancadas de neve leves"
      ∧ getWeatherDescription 86 = "Pancadas de neve fortes"
      ∧ getWeatherDescription 95 = "Tempestade"
      ∧ getWeatherDescription 96 = "Tempestade com granizo leve"
      ∧ getWeatherDescription 99 = "Tempestade com granizo forte")
    ∧ (getWeatherIcon 0 = "wi-day-sunny"
      ∧ getWeatherIcon 1 = "wi-day-sunny"
      ∧ getWeatherIcon 2 = "wi-day-cloudy"
      ∧ getWeatherIcon 3 = "wi-cloud"
      ∧ getWeatherIcon 45 = "wi-fog" ∧ getWeatherIcon 48 = "wi-fog"
      ∧ getWeatherIcon 51 = "wi-rain" ∧ getWeatherIcon 53 = "wi-rain"
      ∧ getWeatherIcon 55 = "wi-rain" ∧ getWeatherIcon 61 = "wi-rain"
      ∧ getWeatherIcon 63 = "wi-rain" ∧ getWeatherIcon 65 = "wi-rain"
      ∧ getWeatherIcon 80 = "wi-rain" ∧ getWeatherIcon 81 = "wi-rain"
      ∧ getWeatherIcon 82 = "wi-rain"
      ∧ getWeatherIcon 71 = "wi-snow" ∧ getWeatherIcon 73 = "wi-snow"
      ∧ getWeatherIcon 75 = "wi-snow" ∧ getWeatherIcon 85 = "wi-snow"
      ∧ getWeatherIcon 86 = "wi-snow"
      ∧ getWeatherIcon 77 = "wi-hail"
      ∧ getWeatherIcon 95 = "wi-thunderstorm" ∧ getWeatherIcon 96 = "wi-thunderstorm"
      ∧ getWeatherIcon 99 = "wi-thunderstorm")
    ∧ ∀ c : ℤ, c ∉ knownCodes →
        getWeatherDescription c = "Condição desconhecida" ∧ getWeatherIcon c = "wi-na" :=
  ⟨by decide, by decide,
   fun c hc => ⟨getWeatherDescription_unknown c hc, getWeatherIcon_unknown c hc⟩⟩

/-- Claim C2, witness: the fallback branch at the unmapped codes 1000 and -5. -/
theorem C2_witness :
    getWeatherDescription 1000 = "Condição desconhecida" ∧ getWeatherIcon (-5) = "wi-na" :=
  ⟨(C2_weatherCodeTable.2.2 1000 (by decide)).1, (C2_weatherCodeTable.2.2 (-5) (by decide)).2⟩

/-- Claim C3, counterexample. The claim routes any input that does not split
into exactly one date part and one time part to the generic locale parse; the
source checks `parts.length >= 2`, so an input with two separators still takes
the structured branch (and does not return the original string even though the
generic parse of it would fail). -/
theorem C3_counterexample :
    formatDateTimeLocal "NOW" (fun _ => none) "2025-11-10T14:30T77" = "10/11/2025 14:30"
    ∧ (splitChar 'T' "2025-11-10T14:30T77").length ≠ 2
    ∧ formatDateTimeLocal "NOW" (fun _ => none) "2025-11-10T14:30T77"
        ≠ "2025-11-10T14:30T77" := by decide

/-- Claim C3, amended: empty input returns the current locale rendering; input
splitting on the separator into two or more parts (only the first two are
used) returns the reversed date part with the first two time components and a
defaulted minute; input with no separator at all goes through the generic
locale parse, falling back to the original string when that parse throws. -/
theorem C3_amended_formatter :
    (∀ nowStr lf, formatDateTimeLocal nowStr lf "" = nowStr)
    ∧ (∀ (nowStr : String) (lf : String → Option String) (s dpart tpart : String)
        (rest : List String) (y mo dd : String),
        s ≠ "" → splitChar 'T' s = dpart :: tpart :: rest →
        splitChar '-' dpart = [y, mo, dd] →
        formatDateTimeLocal nowStr lf s =
          dd ++ "/" ++ mo ++ "/" ++ y ++ " " ++
            jsUndef ((splitChar ':' tpart).get? 0) ++ ":" ++
            jsOr (((splitChar ':' tpart).get? 1).getD "") "00")
    ∧ (∀ (nowStr : String) (lf : String → Option String) (s : String),
        s ≠ "" → (splitChar 'T' s).length < 2 →
        formatDateTimeLocal nowStr lf s = (lf s).getD s)
    ∧ formatDateTimeLocal "N" (fun _ => none) "2025-11-10T14:30" = "10/11/2025 14:30"
    ∧ formatDateTimeLocal "N" (fun _ => none) "2025-11-10T14:30:45" = "10/11/2025 14:30" := by
  refine ⟨?_, ?_, ?_, by decide, by decide⟩
  · intro nowStr lf
    simp [formatDateTimeLocal]
  · intro nowStr lf s dpart tpart rest y mo dd h1 h2 h3
    simp [formatDateTimeLocal, jsUndef, h1, h2, h3]
  · intro nowStr lf s h1 h2
    have h3 : ¬2 ≤ (splitChar 'T' s).length := by omega
    simp only [formatDateTimeLocal, if_neg h1, if_neg h3]
    cases lf s <;> rfl

/-- Claim C3, witness for the amended structured branch at the seconds-bearing
example input. -/
theorem C3_witness :
    formatDateTimeLocal "NOW" (fun _ => some "X") "2025-11-10T14:30:45"
      = "10/11/2025 14:30" := by
  have h := C3_amended_formatter.2.1 "NOW" (fun _ => some "X") "2025-11-10T14:30:45"
    "2025-11-10" "14:30:45" [] "2025" "11" "10" (by decide) (by decide) (by decide)
  rw [h]; decide

/-- Claim C4, counterexample. The source computes `start_date` with
`toISOString`, which renders the UTC calendar date, not the process's local
date: at 2025-11-11 01:00 UTC in a UTC-3 timezone the local date is still
2025-11-10, yet the request is issued with start 2025-11-11. -/
theorem C4_counterexample :
    (get5DayForecast ⟨20403 * 86400000 + 3600000, -180⟩ none none
        (FetchOutcome.reject "x")).2.start_date = "2025-11-11"
    ∧ specLocalStartDate ⟨20403 * 86400000 + 3600000, -180⟩ = "2025-11-10"
    ∧ (get5DayForecast ⟨20403 * 86400000 + 3600000, -180⟩ none none
        (FetchOutcome.reject "x")).2.start_date
        ≠ specLocalStartDate ⟨20403 * 86400000 + 3600000, -180⟩ := by decide

/-- Claim C4, amended: for every invocation, `start_date` is the `YYYY-MM-DD`
rendering of the call instant's UTC calendar date (what `toISOString`
produces) and `end_date` is the rendering of that date plus 4 days — a 5-day
window inclusive of the start day — under the fixed-offset calendar model. -/
theorem C4_amended_forecastWindow (t : JsInstant) (lat lon : Option ℚ)
    (net : FetchOutcome ForecastBody) :
    (get5DayForecast t lat lon net).2.start_date = isoDateOfDays (utcDays t)
    ∧ (get5DayForecast t lat lon net).2.end_date = isoDateOfDays (utcDays t + 4) := by
  rw [get5DayForecast_query]
  exact ⟨rfl, by rw [forecastWindow, utcDays_jsSetDatePlus]⟩

/-- Claim C5: an empty or all-whitespace city name fails with the validation
message and issues no request; any other name issues exactly one geocoding
request (its second component counts the fetches performed). -/
theorem C5_emptyName_validation (name : String) (net : FetchOutcome GeoBody) :
    (jsTrim name = "" →
      getCityCoordinates name net = (Except.error "Nome da cidade é obrigatório", 0))
    ∧ (jsTrim name ≠ "" → (getCityCoordinates name net).2 = 1) := by
  constructor
  · intro h
    simp [getCityCoordinates, h]
  · intro h
    have h0 : name ≠ "" := by
      intro e
      exact h (by rw [e]; rfl)
    simp [getCityCoordinates, h0, h]

/-- Claim C5, witness: a whitespace-only name short-circuits with zero
requests; a real name issues one request even when the network rejects. -/
theorem C5_witness :
    getCityCoordinates "   " (FetchOutcome.reject "x")
      = (Except.error "Nome da cidade é obrigatório", 0)
    ∧ (getCityCoordinates "Lisboa" (FetchOutcome.reject "x")).2 = 1 :=
  ⟨(C5_emptyName_validation "   " (FetchOutcome.reject "x")).1 (by decide),
   (C5_emptyName_validation "Lisboa" (FetchOutcome.reject "x")).2 (by decide)⟩

/-- Claim C6: a successful (2xx) geocoding response whose body has no
`results` key or an empty `results` array fails with the not-found message. -/
theorem C6_emptyResults_notFound (name : String) (status : Nat) (body : GeoBody)
    (hname : jsTrim name ≠ "") (hok : statusOk status = true)
    (hres : body.results = none ∨ body.results = some []) :
    (getCityCoordinates name (FetchOutcome.response status body)).1
      = Except.error "Cidade não encontrada" := by
  have h0 : name ≠ "" := by
    intro e
    exact hname (by rw [e]; rfl)
  rcases hres with h | h <;>
    simp [getCityCoordinates, geoResolve, h0, hname, hok, h]

/-- Claim C6, witness: missing key and empty array at status 200. -/
theorem C6_witness :
    (getCityCoordinates "Lisboa" (FetchOutcome.response 200 ⟨none⟩)).1
      = Except.error "Cidade não encontrada"
    ∧ (getCityCoordinates "Lisboa" (FetchOutcome.response 200 ⟨some []⟩)).1
      = Except.error "Cidade não encontrada" :=
  ⟨C6_emptyResults_notFound "Lisboa" 200 ⟨none⟩ (by decide) (by decide) (Or.inl rfl),
   C6_emptyResults_notFound "Lisboa" 200 ⟨some []⟩ (by decide) (by decide) (Or.inr rfl)⟩

/-- Claim C7: every non-2xx status makes the resolver fail with its fixed
generic coordinates message and the weather fetcher with its fixed generic
weather message, for any status value and any response body. -/
theorem C7_non2xx_fixedMessage {α : Type} (name : String) (status : Nat)
    (gbody : GeoBody) (lat lon : Option ℚ) (wbody : WeatherBody α)
    (hname : jsTrim name ≠ "") (hbad : statusOk status = false) :
    (getCityCoordinates name (FetchOutcome.response status gbody)).1
      = Except.error "Erro ao buscar coordenadas da cidade"
    ∧ getWeatherData lat lon (FetchOutcome.response status wbody)
      = Except.error "Erro ao buscar dados do clima" := by
  have h0 : name ≠ "" := by
    intro e
    exact hname (by rw [e]; rfl)
  exact ⟨by simp [getCityCoordinates, geoResolve, h0, hname, hbad],
         by simp [getWeatherData, hbad]⟩

/-- Claim C7, witness: a 429 and a 500 produce the same fixed texts, with
different response bodies. -/
theorem C7_witness :
    (getCityCoordinates "Lisboa" (FetchOutcome.response 429 ⟨none⟩)).1
      = Except.error "Erro ao buscar coordenadas da cidade"
    ∧ getWeatherData (α := CurrentWeatherRec) (some 1) (some 2)
        (FetchOutcome.response 429 ⟨none⟩)
      = Except.error "Erro ao buscar dados do clima"
    ∧ (getCityCoordinates "Lisboa" (FetchOutcome.response 500 ⟨some []⟩)).1
      = Except.error "Erro ao buscar coordenadas da cidade"
    ∧ getWeatherData (α := CurrentWeatherRec) (some 1) (some 2)
        (FetchOutcome.response 500 ⟨some ⟨0, 0, "t", none⟩⟩)
      = Except.error "Erro ao buscar dados do clima" :=
  ⟨(C7_non2xx_fixedMessage "Lisboa" 429 ⟨none⟩ (some 1) (some 2)
      (⟨none⟩ : WeatherBody CurrentWeatherRec) (by decide) (by decide)).1,
   (C7_non2xx_fixedMessage "Lisboa" 429 ⟨none⟩ (some 1) (some 2)
      (⟨none⟩ : WeatherBody CurrentWeatherRec) (by decide) (by decide)).2,
   (C7_non2xx_fixedMessage "Lisboa" 500 ⟨some []⟩ (some 1) (some 2)
      (⟨some ⟨0, 0, "t", none⟩⟩ : WeatherBody CurrentWeatherRec)
      (by decide) (by decide)).1,
   (C7_non2xx_fixedMessage "Lisboa" 500 ⟨some []⟩ (some 1) (some 2)
      (⟨some ⟨0, 0, "t", none⟩⟩ : WeatherBody CurrentWeatherRec)
      (by decide) (by decide)).2⟩

/-- Claim C8: on a successful status the weather fetcher returns the
`current_weather` payload unchanged — `none` (the null sentinel, not an
error) when the field is missing, and the record as-is when present. -/
theorem C8_missingCurrentWeather {α : Type} (lat lon : Option ℚ) (status : Nat)
    (cw : Option α) (hok : statusOk status = true) :
    getWeatherData lat lon (FetchOutcome.response status ⟨cw⟩) = Except.ok cw := by
  simp [getWeatherData, hok]

/-- Claim C8, witness: missing field gives the null sentinel; a present record
comes back as-is. -/
theorem C8_witness :
    getWeatherData (α := CurrentWeatherRec) (some 1) (some 2)
        (FetchOutcome.response 200 ⟨none⟩) = Except.ok none
    ∧ getWeatherData (some 1) (some 2)
        (FetchOutcome.response 200 ⟨some (⟨mkRat 254 10, 63, "2025-11-10T15:00", none⟩ : CurrentWeatherRec)⟩)
      = Except.ok (some (⟨mkRat 254 10, 63, "2025-11-10T15:00", none⟩ : CurrentWeatherRec)) :=
  ⟨C8_missingCurrentWeather (α := CurrentWeatherRec) (some 1) (some 2) 200 none
     (by decide),
   C8_missingCurrentWeather (some 1) (some 2) 200
     (some (⟨mkRat 254 10, 63, "2025-11-10T15:00", none⟩ : CurrentWeatherRec))
     (by decide)⟩

/-- Claim C9: when the resolver and the weather fetcher succeed, any failure
of the 5-day forecast fetch — network rejection, non-2xx status (both are
`error` results), or a response without usable daily data — is swallowed by
the inner try/catch: the query still succeeds and every current-observation
display value (city label, rounded temperature, description, icon, formatted
timestamp) is produced, with the forecast panel left empty. -/
theorem C9_forecastFailureHarmless (env : Env) (cityName : String)
    (geoNet : FetchOutcome GeoBody)
    (weatherNet : FetchOutcome (WeatherBody CurrentWeatherRec))
    (forecastNet : FetchOutcome ForecastBody)
    (city : GeoLocation) (w : CurrentWeatherRec)
    (hgeo : (getCityCoordinates cityName geoNet).1 = Except.ok city)
    (hw : getWeatherData city.lat city.lon weatherNet = Except.ok (some w))
    (hf : (∃ msg, (get5DayForecast env.nowInstant city.lat city.lon forecastNet).1
            = Except.error msg)
          ∨ (get5DayForecast env.nowInstant city.lat city.lon forecastNet).1
            = Except.ok none
          ∨ ∃ daily, (get5DayForecast env.nowInstant city.lat city.lon forecastNet).1
              = Except.ok (some daily) ∧ daily.time = []) :
    runQuery env cityName geoNet weatherNet forecastNet =
      Except.ok
        ⟨jsUndef city.name ++ ", " ++ jsUndef city.country,
         toString (jsRound w.temperature) ++ "°C",
         getWeatherDescription w.weathercode,
         getWeatherIcon w.weathercode,
         formatDateTimeLocal env.nowLocaleStr env.localeFormat w.time,
         false⟩ := by
  unfold runQuery
  rw [hgeo]
  dsimp only
  rw [hw]
  dsimp only
  rcases hf with ⟨msg, hm⟩ | hm | ⟨daily, hm, htime⟩ <;> rw [hm] <;> simp [htime]

/-- Claim C9, witness: the end-to-end São Paulo scenario with a rejected
forecast request still renders all five current-weather display values. -/
theorem C9_witness :
    runQuery ⟨⟨0, 0⟩, "x", fun _ => none⟩ "São Paulo"
      (FetchOutcome.response 200
        ⟨some [⟨some (mkRat (-2355) 100), some (mkRat (-4663) 100),
                some "São Paulo", some "Brazil"⟩]⟩)
      (FetchOutcome.response 200
        ⟨some ⟨mkRat 254 10, 63, "2025-11-10T15:00", none⟩⟩)
      (FetchOutcome.reject "network")
    = Except.ok ⟨"São Paulo, Brazil", "25°C", "Chuva moderada", "wi-rain",
        "10/11/2025 15:00", false⟩ := by
  have h := C9_forecastFailureHarmless ⟨⟨0, 0⟩, "x", fun _ => none⟩ "São Paulo"
    (FetchOutcome.response 200
      ⟨some [⟨some (mkRat (-2355) 100), some (mkRat (-4663) 100),
              some "São Paulo", some "Brazil"⟩]⟩)
    (FetchOutcome.response 200
      ⟨some ⟨mkRat 254 10, 63, "2025-11-10T15:00", none⟩⟩)
    (FetchOutcome.reject "network")
    ⟨some (mkRat (-2355) 100), some (mkRat (-4663) 100),
     some "São Paulo", some "Brazil"⟩
    ⟨mkRat 254 10, 63, "2025-11-10T15:00", none⟩
    (by decide) (by decide) (Or.inl ⟨"network", by decide⟩)
  rw [h]
  decide

/-- Claim C10: a successful geocoding response with a non-empty `results`
array always succeeds with exactly the first entry's four fields copied over,
with no validation — absent fields stay absent in the returned object and no
malformed-response error exists. -/
theorem C10_firstResultProjection (name : String) (status : Nat)
    (r : GeoResult) (rest : List GeoResult)
    (hname : jsTrim name ≠ "") (hok : statusOk status = true) :
    getCityCoordinates name (FetchOutcome.response status ⟨some (r :: rest)⟩)
      = (Except.ok ⟨r.latitude, r.longitude, r.name, r.country⟩, 1) := by
  have h0 : name ≠ "" := by
    intro e
    exact hname (by rw [e]; rfl)
  simp [getCityCoordinates, geoResolve, h0, hname, hok]

/-- Claim C10, witness: a first result with every field missing still yields
success, with all four fields undefined. -/
theorem C10_witness :
    getCityCoordinates "Lisboa"
      (FetchOutcome.response 200 ⟨some [⟨none, none, none, none⟩]⟩)
      = (Except.ok ⟨none, none, none, none⟩, 1) :=
  C10_firstResultProjection "Lisboa" 200 ⟨none, none, none, none⟩ []
    (by decide) (by decide)
